import Mathlib

/-!
Verification of the fiber payment-channel actor (`src/fiber/src/fiber/channel.rs`)
against its natural-language specification.

The Rust data model and the operations relevant to the checked claims are
shallowly embedded below.  Machine integers are modelled as `Nat`; `u128`
arithmetic that may wrap uses explicit `% 2^128` operations (`wadd128`,
`wsub128`).  Commitment counters (`u64`, one increment per signed round,
starting at 0) are modelled as plain `Nat` since their overflow is unreachable.
Fallible Rust functions return `Except`; a Rust `expect`/panic is modelled by
`Option` with `none` for the panicking execution.  Cryptographic digests and
musig2 signing are external to the channel logic and enter the model as
function parameters.
-/

namespace Fiber

/-- Width of `u128` arithmetic. -/
def U128 : Nat := 2 ^ 128

/-- Wrapping `u128` addition, as performed by release-mode Rust `+` on `u128`. -/
def wadd128 (a b : Nat) : Nat := (a + b) % U128

/-- Wrapping `u128` subtraction, as performed by release-mode Rust `-` on `u128`.
For `a b < 2^128` this is `(a - b) mod 2^128`. -/
def wsub128 (a b : Nat) : Nat := (a + U128 - b % U128) % U128

/-- `CommitmentNumbers` from channel.rs: the local/remote commitment counters. -/
structure CommitmentNumbers where
  local_ : Nat
  remote : Nat
  deriving DecidableEq, Repr

namespace CommitmentNumbers

/-- `INITIAL_COMMITMENT_NUMBER` in channel.rs. -/
def INITIAL_COMMITMENT_NUMBER : Nat := 0

/-- `CommitmentNumbers::new`. -/
def new : CommitmentNumbers :=
  { local_ := INITIAL_COMMITMENT_NUMBER, remote := INITIAL_COMMITMENT_NUMBER }

/-- `CommitmentNumbers::get_local`. -/
def get_local (c : CommitmentNumbers) : Nat := c.local_

/-- `CommitmentNumbers::get_remote`. -/
def get_remote (c : CommitmentNumbers) : Nat := c.remote

/-- `CommitmentNumbers::increment_local` (`self.local += 1`). -/
def increment_local (c : CommitmentNumbers) : CommitmentNumbers :=
  { c with local_ := c.local_ + 1 }

/-- `CommitmentNumbers::increment_remote` (`self.remote += 1`). -/
def increment_remote (c : CommitmentNumbers) : CommitmentNumbers :=
  { c with remote := c.remote + 1 }

/-- `CommitmentNumbers::flip`: swap the two counters. -/
def flip (c : CommitmentNumbers) : CommitmentNumbers :=
  { local_ := c.remote, remote := c.local_ }

end CommitmentNumbers

/-- `TLCId` from channel.rs: directional TLC identifier. -/
inductive TLCId where
  | Offered (id : Nat)
  | Received (id : Nat)
  deriving DecidableEq, Repr

namespace TLCId

/-- `impl From<TLCId> for u64`: strip the direction. -/
def toU64 : TLCId → Nat
  | Offered id => id
  | Received id => id

/-- `TLCId::is_offered`. -/
def is_offered : TLCId → Bool
  | Offered _ => true
  | Received _ => false

/-- `TLCId::is_received` (`!self.is_offered()`). -/
def is_received (t : TLCId) : Bool := ! t.is_offered

/-- `TLCId::flip`: swap the direction, keeping the numeric id. -/
def flip : TLCId → TLCId
  | Offered id => Received id
  | Received id => Offered id

/-- Rust derived `Ord` on `TLCId`: variant order (`Offered < Received`),
then the numeric id.  Used by the `BTreeMap` in `filter_add_tlcs`. -/
def lt : TLCId → TLCId → Bool
  | Offered a, Offered b => a < b
  | Offered _, Received _ => true
  | Received _, Offered _ => false
  | Received a, Received b => a < b

end TLCId

/-- `HashAlgorithm` (ckb-hash or sha256); the digest itself is a model
parameter. -/
inductive HashAlgorithm where
  | CkbHash
  | Sha256
  deriving DecidableEq, Repr

/-- A digest function for the model: maps a hash algorithm and a preimage to a
payment hash.  Stands in for `HashAlgorithm::hash`, whose concrete digest is
outside the channel logic. -/
def HashFn : Type := HashAlgorithm → Nat → Nat

/-- `RemoveTlcReason`: fulfill with a preimage, or fail with an (opaque)
encrypted error packet. -/
inductive RemoveTlcReason where
  | RemoveTlcFulfill (payment_preimage : Nat)
  | RemoveTlcFail (packet : Nat)
  deriving DecidableEq, Repr

/-- `AddTlcInfo` from channel.rs, with the fields the checked claims depend on
(opaque onion/secret fields omitted; hashes and preimages are `Nat`). -/
structure AddTlcInfo where
  tlc_id : TLCId
  amount : Nat
  payment_hash : Nat
  expiry : Nat
  hash_algorithm : HashAlgorithm
  created_at : CommitmentNumbers
  removed_at : Option (CommitmentNumbers × RemoveTlcReason)
  payment_preimage : Option Nat
  deriving DecidableEq, Repr

/-- `AddTlcInfo::is_offered`. -/
def AddTlcInfo.is_offered (i : AddTlcInfo) : Bool := i.tlc_id.is_offered

/-- `RemoveTlcInfo` from channel.rs. -/
structure RemoveTlcInfo where
  tlc_id : TLCId
  reason : RemoveTlcReason
  deriving DecidableEq, Repr

/-- `TlcKind`: an entry of a pending-TLC list. -/
inductive TlcKind where
  | AddTlc (info : AddTlcInfo)
  | RemoveTlc (info : RemoveTlcInfo)
  deriving DecidableEq, Repr

/-- `TlcKind::tlc_id`. -/
def TlcKind.tlc_id : TlcKind → TLCId
  | .AddTlc info => info.tlc_id
  | .RemoveTlc info => info.tlc_id

/-- `PendingTlcs`: ordered operation list with a committed-prefix watermark and
the next TLC id for its direction. -/
structure PendingTlcs where
  tlcs : List TlcKind
  committed_index : Nat
  next_tlc_id : Nat
  deriving DecidableEq, Repr

namespace PendingTlcs

/-- `PendingTlcs::new`. -/
def new : PendingTlcs := { tlcs := [], committed_index := 0, next_tlc_id := 0 }

/-- `PendingTlcs::increment_next_tlc_id`. -/
def increment_next_tlc_id (p : PendingTlcs) : PendingTlcs :=
  { p with next_tlc_id := p.next_tlc_id + 1 }

/-- `PendingTlcs::is_tlc_present`: same kind with the same `tlc_id`. -/
def is_tlc_present (p : PendingTlcs) (tlc : TlcKind) : Bool :=
  p.tlcs.any fun t =>
    match t, tlc with
    | .AddTlc i1, .AddTlc i2 => i1.tlc_id = i2.tlc_id
    | .RemoveTlc i1, .RemoveTlc i2 => i1.tlc_id = i2.tlc_id
    | _, _ => false

/-- `PendingTlcs::push` (the `assert!(!is_tlc_present)` is an internal
invariant; the pushed entry is appended). -/
def push (p : PendingTlcs) (tlc : TlcKind) : PendingTlcs :=
  { p with tlcs := p.tlcs ++ [tlc] }

/-- The first-match lookup of `PendingTlcs::get_mut` /
the per-list arm of `TlcState::get`. -/
def findAdd (p : PendingTlcs) (id : TLCId) : Option AddTlcInfo :=
  p.tlcs.findSome? fun t =>
    match t with
    | .AddTlc info => if info.tlc_id = id then some info else none
    | _ => none

/-- `PendingTlcs::drop_remove_tlc`: drop `RemoveTlc` entries with the id and
move the watermark to the end. -/
def drop_remove_tlc (p : PendingTlcs) (id : TLCId) : PendingTlcs :=
  let tlcs := p.tlcs.filter fun t =>
    match t with
    | .RemoveTlc info => decide (info.tlc_id ≠ id)
    | _ => true
  { p with tlcs := tlcs, committed_index := tlcs.length }

/-- The `get_mut` + assignment in `mark_tlc_remove`: set `removed_at` on the
first matching `AddTlc` entry, if any. -/
def setRemovedAt (p : PendingTlcs) (id : TLCId)
    (ra : CommitmentNumbers × RemoveTlcReason) : PendingTlcs :=
  let rec go : List TlcKind → List TlcKind
    | [] => []
    | .AddTlc info :: rest =>
        if info.tlc_id = id then .AddTlc { info with removed_at := some ra } :: rest
        else .AddTlc info :: go rest
    | t :: rest => t :: go rest
  { p with tlcs := go p.tlcs }

/-- Keep predicate of `shrink_removed_tlc`: drop removed-marked adds. -/
def keepUnremoved : TlcKind → Bool
  | .AddTlc info => info.removed_at.isNone
  | _ => true

/-- `PendingTlcs::shrink_removed_tlc`: compact removed-marked adds out of the
list and recompute the watermark over the committed prefix. -/
def shrink_removed_tlc (p : PendingTlcs) : PendingTlcs :=
  let newIdx := ((p.tlcs.take p.committed_index).filter keepUnremoved).length
  { p with tlcs := p.tlcs.filter keepUnremoved, committed_index := newIdx }

end PendingTlcs

/-- `TlcState`: the two direction-owned pending lists plus the ack gate
(the retryable-remove queue is not touched by the modelled operations). -/
structure TlcState where
  local_pending_tlcs : PendingTlcs
  remote_pending_tlcs : PendingTlcs
  waiting_ack : Bool
  deriving DecidableEq, Repr

namespace TlcState

/-- `TlcState::new`-equivalent default. -/
def new : TlcState :=
  { local_pending_tlcs := .new, remote_pending_tlcs := .new, waiting_ack := false }

/-- `TlcState::get`: offered ids are looked up in the local list only,
received ids in the remote list only. -/
def get (ts : TlcState) (id : TLCId) : Option AddTlcInfo :=
  match id with
  | .Offered _ => ts.local_pending_tlcs.findAdd id
  | .Received _ => ts.remote_pending_tlcs.findAdd id

/-- `TlcState::add_local_tlc`. -/
def add_local_tlc (ts : TlcState) (tlc : TlcKind) : TlcState :=
  { ts with local_pending_tlcs := ts.local_pending_tlcs.push tlc }

/-- `TlcState::add_remote_tlc`. -/
def add_remote_tlc (ts : TlcState) (tlc : TlcKind) : TlcState :=
  { ts with remote_pending_tlcs := ts.remote_pending_tlcs.push tlc }

/-- `TlcState::set_waiting_ack`. -/
def set_waiting_ack (ts : TlcState) (b : Bool) : TlcState :=
  { ts with waiting_ack := b }

/-- `TlcState::get_next_offering`. -/
def get_next_offering (ts : TlcState) : Nat := ts.local_pending_tlcs.next_tlc_id

/-- `TlcState::increment_offering`. -/
def increment_offering (ts : TlcState) : TlcState :=
  { ts with local_pending_tlcs := ts.local_pending_tlcs.increment_next_tlc_id }

/-- `TlcState::get_next_received`. -/
def get_next_received (ts : TlcState) : Nat := ts.remote_pending_tlcs.next_tlc_id

/-- `TlcState::increment_received`. -/
def increment_received (ts : TlcState) : TlcState :=
  { ts with remote_pending_tlcs := ts.remote_pending_tlcs.increment_next_tlc_id }

/-- Ordered insert-or-overwrite into a `BTreeMap`-like association list keyed
by `TLCId` (Rust derived `Ord`). -/
def insertByKey (k : TLCId) (v : AddTlcInfo) :
    List (TLCId × AddTlcInfo) → List (TLCId × AddTlcInfo)
  | [] => [(k, v)]
  | (k', v') :: rest =>
      if k = k' then (k, v) :: rest
      else if TLCId.lt k k' then (k, v) :: (k', v') :: rest
      else (k', v') :: insertByKey k v rest

/-- `TlcState::filter_add_tlcs`: non-removed adds, deduplicated by id through a
`BTreeMap` (later entries overwrite earlier ones), listed in key order. -/
def filterAddTlcs (ks : List TlcKind) : List AddTlcInfo :=
  let pairs := ks.filterMap fun t =>
    match t with
    | .AddTlc info => if info.removed_at.isNone then some (info.tlc_id, info) else none
    | _ => none
  (pairs.foldl (fun acc p => insertByKey p.1 p.2 acc) []).map Prod.snd

/-- `TlcState::all_tlcs`: live adds over both whole lists. -/
def all_tlcs (ts : TlcState) : List AddTlcInfo :=
  filterAddTlcs (ts.local_pending_tlcs.tlcs ++ ts.remote_pending_tlcs.tlcs)

/-- `TlcState::mark_tlc_remove`. -/
def mark_tlc_remove (ts : TlcState) (id : TLCId) (removed_at : CommitmentNumbers)
    (reason : RemoveTlcReason) : TlcState :=
  let lp := (ts.local_pending_tlcs.drop_remove_tlc id).setRemovedAt id (removed_at, reason)
  let rp := (ts.remote_pending_tlcs.drop_remove_tlc id).setRemovedAt id (removed_at, reason)
  { ts with local_pending_tlcs := lp, remote_pending_tlcs := rp }

/-- `TlcState::apply_remove_tlc`: mark, then compact the owning side. -/
def apply_remove_tlc (ts : TlcState) (id : TLCId) (removed_at : CommitmentNumbers)
    (reason : RemoveTlcReason) : TlcState :=
  let ts := ts.mark_tlc_remove id removed_at reason
  if id.is_offered then
    { ts with local_pending_tlcs := ts.local_pending_tlcs.shrink_removed_tlc }
  else
    { ts with remote_pending_tlcs := ts.remote_pending_tlcs.shrink_removed_tlc }

end TlcState

/-- Bitflag substate of `ShuttingDown` etc. are `u32` bit sets; `contains` is
`(flags & mask) == mask` as in the Rust `bitflags` crate. -/
def containsFlags (flags mask : Nat) : Bool := flags &&& mask = mask

/-- `ShuttingDownFlags::OUR_SHUTDOWN_SENT`. -/
def OUR_SHUTDOWN_SENT : Nat := 1
/-- `ShuttingDownFlags::THEIR_SHUTDOWN_SENT`. -/
def THEIR_SHUTDOWN_SENT : Nat := 2
/-- `ShuttingDownFlags::AWAITING_PENDING_TLCS` (= OUR | THEIR). -/
def AWAITING_PENDING_TLCS : Nat := 3
/-- `ShuttingDownFlags::DROPPING_PENDING`. -/
def DROPPING_PENDING : Nat := 4
/-- `SigningCommitmentFlags::OUR_COMMITMENT_SIGNED_SENT`. -/
def OUR_COMMITMENT_SIGNED_SENT : Nat := 1
/-- `CollaboratingFundingTxFlags::COLLABRATION_COMPLETED`. -/
def COLLABRATION_COMPLETED : Nat := 12

/-- `ChannelState` from channel.rs, with each bitflag substate as a `Nat`
bit set. -/
inductive ChannelState where
  | NegotiatingFunding (flags : Nat)
  | CollaboratingFundingTx (flags : Nat)
  | SigningCommitment (flags : Nat)
  | AwaitingTxSignatures (flags : Nat)
  | AwaitingChannelReady (flags : Nat)
  | ChannelReady
  | ShuttingDown (flags : Nat)
  | Closed (flags : Nat)
  deriving DecidableEq, Repr

/-- `ChannelConstraints`. -/
structure ChannelConstraints where
  max_tlc_value_in_flight : Nat
  max_tlc_number_in_flight : Nat
  deriving DecidableEq, Repr

/-- `ChannelActorState`, restricted to the fields the checked claims read or
write.  Pubkeys are byte lists (compared lexicographically, as the Rust
derived `Ord` on serialized keys does); commitment points are opaque `Nat`s. -/
structure ChannelActorState where
  state : ChannelState
  to_local_amount : Nat
  to_remote_amount : Nat
  commitment_numbers : CommitmentNumbers
  tlc_state : TlcState
  remote_commitment_points : List (Nat × Nat)
  local_constraints : ChannelConstraints
  remote_constraints : ChannelConstraints
  local_funding_pubkey : List Nat
  remote_funding_pubkey : List Nat
  reestablishing : Bool
  deriving DecidableEq, Repr

namespace ChannelActorState

/-- `get_current_commitment_numbers`. -/
def get_current_commitment_numbers (s : ChannelActorState) : CommitmentNumbers :=
  s.commitment_numbers

/-- `get_local_commitment_number`. -/
def get_local_commitment_number (s : ChannelActorState) : Nat :=
  s.commitment_numbers.get_local

/-- `get_remote_commitment_number`. -/
def get_remote_commitment_number (s : ChannelActorState) : Nat :=
  s.commitment_numbers.get_remote

/-- `set_remote_commitment_number` (`self.commitment_numbers.remote = number`). -/
def set_remote_commitment_number (s : ChannelActorState) (number : Nat) :
    ChannelActorState :=
  { s with commitment_numbers := { s.commitment_numbers with remote := number } }

/-- `increment_local_commitment_number`. -/
def increment_local_commitment_number (s : ChannelActorState) : ChannelActorState :=
  { s with commitment_numbers := s.commitment_numbers.increment_local }

/-- `increment_remote_commitment_number`. -/
def increment_remote_commitment_number (s : ChannelActorState) : ChannelActorState :=
  { s with commitment_numbers := s.commitment_numbers.increment_remote }

/-- `any_tlc_pending`: some live add exists (`all_tlcs` already filters
removed entries, so this is non-emptiness). -/
def any_tlc_pending (s : ChannelActorState) : Bool :=
  s.tlc_state.all_tlcs.any fun tlc => tlc.removed_at.isNone

/-- `update_state`. -/
def update_state (s : ChannelActorState) (new_state : ChannelState) :
    ChannelActorState :=
  { s with state := new_state }

/-- `get_all_offer_tlcs`: live offered adds. -/
def get_all_offer_tlcs (s : ChannelActorState) : List AddTlcInfo :=
  s.tlc_state.all_tlcs.filter AddTlcInfo.is_offered

/-- `get_all_received_tlcs`: live received adds. -/
def get_all_received_tlcs (s : ChannelActorState) : List AddTlcInfo :=
  s.tlc_state.all_tlcs.filter fun tlc => ! tlc.is_offered

/-- `get_offered_tlc_balance`. -/
def get_offered_tlc_balance (s : ChannelActorState) : Nat :=
  (s.get_all_offer_tlcs.map AddTlcInfo.amount).sum

/-- `get_received_tlc_balance`. -/
def get_received_tlc_balance (s : ChannelActorState) : Nat :=
  (s.get_all_received_tlcs.map AddTlcInfo.amount).sum

end ChannelActorState

/-- `ProcessingChannelError`, with the claims' relevant variants
(the Rust message payload strings are dropped). -/
inductive ProcessingChannelError where
  | InvalidState
  | InvalidParameter
  | RepeatedProcessing
  | WaitingTlcAck
  | FinalIncorrectPreimage
  | TlcExpirySoon
  | TlcExpiryTooFar
  | TlcAmountIsTooLow
  | TlcNumberExceedLimit
  | TlcValueInflightExceedLimit
  | TlcAmountExceedLimit
  | Musig2SigningError
  deriving DecidableEq, Repr

/-- Lexicographic byte-wise comparison (`a <= b`) on serialized keys, the order
produced by the Rust derived `Ord` used in `local_pubkey <= remote_pubkey`. -/
def lexLe : List Nat → List Nat → Bool
  | [], _ => true
  | _ :: _, [] => false
  | a :: as_, b :: bs =>
      if a < b then true
      else if b < a then false
      else lexLe as_ bs

namespace ChannelActorState

/-- Modelled from the spec: `MAX_PAYMENT_TLC_EXPIRY_LIMIT` is declared in the
fiber `config` module, which is not included under `src/`.  The spec names the
constant (§4.2) but records no value; the value used here is one day in
milliseconds, consistent with the spec's use of absolute millisecond expiries.
No checked claim depends on the exact value (theorems about the bound are
proved for an arbitrary positive limit). -/
def MAX_PAYMENT_TLC_EXPIRY_LIMIT : Nat := 86400000

/-- Modelled from the spec: `MIN_TLC_EXPIRY_DELTA` is declared in the fiber
`config` module, which is not included under `src/`.  The spec names it as the
minimum TLC expiry margin in milliseconds (§4.2) and the code under `src/`
rejects any channel `tlc_expiry_delta` below it; the value used here is
fifteen minutes in milliseconds.  The claims touching it depend only on the
constant being larger than one millisecond. -/
def MIN_TLC_EXPIRY_DELTA : Nat := 900000

/-- `check_tlc_expiry`, with the clock reading and the configured upper limit
as explicit arguments:  reject with `TlcExpirySoon` when
`current_time >= expiry`, with `TlcExpiryTooFar` when
`expiry >= current_time + max_limit`, otherwise accept. -/
def check_tlc_expiry_with (max_limit now expiry : Nat) :
    Except ProcessingChannelError Unit :=
  if now ≥ expiry then .error .TlcExpirySoon
  else if expiry ≥ now + max_limit then .error .TlcExpiryTooFar
  else .ok ()

/-- `check_tlc_expiry` at the configured `MAX_PAYMENT_TLC_EXPIRY_LIMIT`. -/
def check_tlc_expiry (now expiry : Nat) : Except ProcessingChannelError Unit :=
  check_tlc_expiry_with MAX_PAYMENT_TLC_EXPIRY_LIMIT now expiry

/-- `check_remove_tlc_with_reason` (a pure check on `&self`). -/
def check_remove_tlc_with_reason (hashFn : HashFn) (s : ChannelActorState)
    (tlc_id : TLCId) (reason : RemoveTlcReason) :
    Except ProcessingChannelError Unit :=
  match s.tlc_state.get tlc_id with
  | some tlc =>
      if tlc.removed_at.isSome then .error .RepeatedProcessing
      else
        match reason with
        | .RemoveTlcFulfill preimage =>
            if hashFn tlc.hash_algorithm preimage ≠ tlc.payment_hash then
              .error .FinalIncorrectPreimage
            else .ok ()
        | .RemoveTlcFail _ => .ok ()
  | none => .error .InvalidParameter

/-- `remove_tlc_with_reason`.  The `expect("TLC exists")` panic is `none`;
error returns leave the state untouched (the Rust function mutates only on the
success path), so errors carry no state. -/
def remove_tlc_with_reason (hashFn : HashFn) (s : ChannelActorState)
    (tlc_id : TLCId) (reason : RemoveTlcReason) :
    Option (Except ProcessingChannelError (AddTlcInfo × ChannelActorState)) :=
  let removed_at := s.get_current_commitment_numbers
  match s.tlc_state.get tlc_id with
  | none => none
  | some current =>
    match current.removed_at with
    | some (current_removed_at, current_remove_reason) =>
        if current_remove_reason = reason ∧ removed_at = current_removed_at then
          some (.error .RepeatedProcessing)
        else
          some (.error .InvalidParameter)
    | none =>
        match reason with
        | .RemoveTlcFulfill fulfill =>
            if hashFn current.hash_algorithm fulfill ≠ current.payment_hash then
              some (.error .FinalIncorrectPreimage)
            else
              let tl :=
                if current.is_offered then wsub128 s.to_local_amount current.amount
                else wadd128 s.to_local_amount current.amount
              let tr :=
                if current.is_offered then wadd128 s.to_remote_amount current.amount
                else wsub128 s.to_remote_amount current.amount
              let s1 := { s with to_local_amount := tl, to_remote_amount := tr }
              let s2 := { s1 with
                tlc_state := s1.tlc_state.apply_remove_tlc tlc_id removed_at reason }
              some (.ok (current, s2))
        | .RemoveTlcFail _ =>
            let s2 := { s with
              tlc_state := s.tlc_state.apply_remove_tlc tlc_id removed_at reason }
            some (.ok (current, s2))

/-- `check_tlc_limits`. -/
def check_tlc_limits (s : ChannelActorState) (add_amount : Nat) (is_sent : Bool) :
    Except ProcessingChannelError Unit :=
  if add_amount = 0 then .error .TlcAmountIsTooLow
  else if is_sent then
    let active_number := s.get_all_offer_tlcs.length + 1
    if active_number > s.local_constraints.max_tlc_number_in_flight then
      .error .TlcNumberExceedLimit
    else
      let active_amount := s.get_offered_tlc_balance + add_amount
      if active_amount > s.local_constraints.max_tlc_value_in_flight then
        .error .TlcValueInflightExceedLimit
      else .ok ()
  else
    let active_number := s.get_all_received_tlcs.length + 1
    if active_number > s.remote_constraints.max_tlc_number_in_flight then
      .error .TlcNumberExceedLimit
    else
      let active_amount := s.get_received_tlc_balance + add_amount
      if active_amount > s.remote_constraints.max_tlc_value_in_flight then
        .error .TlcValueInflightExceedLimit
      else .ok ()

/-- `check_for_tlc_update` (a pure check on `&self`). -/
def check_for_tlc_update (s : ChannelActorState) (add_tlc_amount : Option Nat)
    (is_tlc_command_message is_sent : Bool) : Except ProcessingChannelError Unit :=
  if is_tlc_command_message ∧ s.tlc_state.waiting_ack then .error .WaitingTlcAck
  else
    match s.state with
    | .ChannelReady =>
        match add_tlc_amount with
        | some a => s.check_tlc_limits a is_sent
        | none => .ok ()
    | .ShuttingDown _ =>
        if add_tlc_amount.isNone then .ok ()
        else .error .InvalidState
    | _ => .error .InvalidState

/-- `check_insert_tlc`. -/
def check_insert_tlc (s : ChannelActorState) (tlc : AddTlcInfo) :
    Except ProcessingChannelError Unit :=
  if (s.tlc_state.all_tlcs.find? fun t =>
        t.payment_hash = tlc.payment_hash).isSome then
    .error .RepeatedProcessing
  else if tlc.is_offered then
    if s.get_offered_tlc_balance + tlc.amount > s.to_local_amount then
      .error .TlcAmountExceedLimit
    else .ok ()
  else
    if s.get_received_tlc_balance + tlc.amount > s.to_remote_amount then
      .error .TlcAmountExceedLimit
    else .ok ()

/-- Minimum of a list of naturals, as the Rust iterator `min()`. -/
def listMin : List Nat → Option Nat
  | [] => none
  | a :: rest => some (rest.foldl min a)

/-- `append_remote_commitment_point`.  The returned boolean is the condition of
the trailing `assert!` (`remote_commitment_points.len() <=
max_tlc_number_in_flight + 1`): `false` models the panicking execution. -/
def append_remote_commitment_point (s : ChannelActorState) (commitment_point : Nat) :
    ChannelActorState × Bool :=
  let pts := s.remote_commitment_points ++ [(s.get_local_commitment_number, commitment_point)]
  let bound := s.local_constraints.max_tlc_number_in_flight + 1
  let pts' :=
    if pts.length > bound then
      let min_remote_commitment :=
        (listMin (s.tlc_state.all_tlcs.map fun x => x.created_at.remote)).getD 0
      pts.filter fun p => decide (p.1 ≥ min_remote_commitment)
    else pts
  ({ s with remote_commitment_points := pts' }, decide (pts'.length ≤ bound))

/-- `should_local_go_first_in_musig2`: lexicographically compare the two
funding pubkeys (`local_pubkey <= remote_pubkey`). -/
def should_local_go_first_in_musig2 (s : ChannelActorState) : Bool :=
  lexLe s.local_funding_pubkey s.remote_funding_pubkey

/-- `should_local_send_tx_signatures_first`. -/
def should_local_send_tx_signatures_first (s : ChannelActorState) : Bool :=
  decide (s.to_local_amount < s.to_remote_amount) ||
    (decide (s.to_local_amount = s.to_remote_amount) && s.should_local_go_first_in_musig2)

end ChannelActorState

/-- The fixed `empty_witness_args` prefix
(`[16, 0, 0, 0, 16, 0, 0, 0, 16, 0, 0, 0, 16, 0, 0, 0]`). -/
def empty_witness_args : List Nat :=
  [16, 0, 0, 0, 16, 0, 0, 0, 16, 0, 0, 0, 16, 0, 0, 0]

/-- `create_witness_for_funding_cell`: prefix ‖ x-only key ‖ signature. -/
def create_witness_for_funding_cell (lock_key_xonly signature : List Nat) : List Nat :=
  empty_witness_args ++ lock_key_xonly ++ signature

/-- `create_witness_for_commitment_cell`: prefix ‖ `0xFE` ‖ x-only key ‖
signature. -/
def create_witness_for_commitment_cell (lock_key_xonly signature : List Nat) : List Nat :=
  empty_witness_args ++ [0xFE] ++ lock_key_xonly ++ signature

/-- Outbound effects of a handler: wire frames plus the self-addressed
`CommitmentSigned` channel command used during reestablishment. -/
inductive OutMsg where
  | addTlc (tlc_id : Nat)
  | removeTlc (tlc_id : Nat) (reason : RemoveTlcReason)
  | commitmentSigned
  | commitmentSignedCommand
  | revokeAndAck
  deriving DecidableEq, Repr

/-- Result of a state-mutating handler: the post-state (mutations before an
error persist, as the Rust handlers run on `&mut self`), the messages sent,
and the error if the handler returned one. -/
def HandlerResult : Type := ChannelActorState × List OutMsg × Option ProcessingChannelError

/-- The `CommitmentSignedFlags` variants of channel.rs. -/
inductive CommitmentSignedFlagsM where
  | SigningCommitment (flags : Nat)
  | PendingShutdown
  | ChannelReadyF
  deriving DecidableEq, Repr

/-- The body of `handle_commitment_signed_command` after its state-precondition
match (building and musig2-signing the commitment transactions, sending
`CommitmentSigned`, nonce bookkeeping and the per-variant state update).  It
involves external cryptography, so the model takes it as a parameter; the
state-precondition match itself is embedded from the source. -/
def CsBody : Type := ChannelActorState → CommitmentSignedFlagsM → HandlerResult

/-- The body of `maybe_transition_to_shutdown` after the
`AWAITING_PENDING_TLCS`/no-pending gate (shutdown-transaction build and
musig2 signing), abstracted for the same reason. -/
def SdBody : Type := ChannelActorState → HandlerResult

namespace ChannelActorState

/-- The state-precondition match of `handle_commitment_signed_command`:
`InvalidState` (with no mutation and no message) exactly as in the source, and
otherwise the `CommitmentSignedFlags` variant handed to the body. -/
def commitment_signed_flags_check (s : ChannelActorState) :
    Except ProcessingChannelError CommitmentSignedFlagsM :=
  match s.state with
  | .CollaboratingFundingTx flags =>
      if ! containsFlags flags COLLABRATION_COMPLETED then .error .InvalidState
      else .ok (.SigningCommitment 0)
  | .SigningCommitment flags =>
      if containsFlags flags OUR_COMMITMENT_SIGNED_SENT then .error .InvalidState
      else .ok (.SigningCommitment flags)
  | .ChannelReady => .ok .ChannelReadyF
  | .ShuttingDown flags =>
      if containsFlags flags AWAITING_PENDING_TLCS then .ok .PendingShutdown
      else .error .InvalidState
  | _ => .error .InvalidState

/-- `handle_commitment_signed_command`: precondition match from the source,
then the abstracted signing body. -/
def handle_commitment_signed_command (csBody : CsBody) (s : ChannelActorState) :
    HandlerResult :=
  match s.commitment_signed_flags_check with
  | .error e => (s, [], some e)
  | .ok flagsCase => csBody s flagsCase

/-- `maybe_transition_to_shutdown`: a no-op unless the channel is
`ShuttingDown` with `AWAITING_PENDING_TLCS` and no TLC pending; in that case
the state first advances to `DROPPING_PENDING` and the abstracted
shutdown-signing body runs. -/
def maybe_transition_to_shutdown (sdBody : SdBody) (s : ChannelActorState) :
    HandlerResult :=
  match s.state with
  | .ShuttingDown flags =>
      if ! containsFlags flags AWAITING_PENDING_TLCS || s.any_tlc_pending then
        (s, [], none)
      else
        sdBody (s.update_state (.ShuttingDown (flags ||| DROPPING_PENDING)))
  | _ => (s, [], none)

end ChannelActorState

/-- `RemoveTlcCommand`. -/
structure RemoveTlcCommand where
  id : Nat
  reason : RemoveTlcReason
  deriving DecidableEq, Repr

/-- `AddTlcCommand`, restricted to the fields the modelled path reads. -/
structure AddTlcCommand where
  amount : Nat
  payment_hash : Nat
  expiry : Nat
  hash_algorithm : HashAlgorithm
  deriving DecidableEq, Repr

namespace ChannelActorState

/-- `create_outbounding_tlc`. -/
def create_outbounding_tlc (s : ChannelActorState) (command : AddTlcCommand) :
    AddTlcInfo :=
  { tlc_id := .Offered s.tlc_state.get_next_offering
    amount := command.amount
    payment_hash := command.payment_hash
    expiry := command.expiry
    hash_algorithm := command.hash_algorithm
    created_at := s.get_current_commitment_numbers
    removed_at := none
    payment_preimage := none }

/-- `handle_remove_tlc_command`: pure checks, then enqueue the remove on the
local pending list, send the wire `RemoveTlc`, run
`maybe_transition_to_shutdown` and the embedded `CommitmentSigned` step, and
finally set `waiting_ack`.  An error from a later step leaves the earlier
mutations and sends in place. -/
def handle_remove_tlc_command (hashFn : HashFn) (csBody : CsBody) (sdBody : SdBody)
    (s : ChannelActorState) (command : RemoveTlcCommand) : HandlerResult :=
  match s.check_for_tlc_update none true false with
  | .error e => (s, [], some e)
  | .ok _ =>
  match check_remove_tlc_with_reason hashFn s (.Received command.id) command.reason with
  | .error e => (s, [], some e)
  | .ok _ =>
  let rinfo : RemoveTlcInfo := { tlc_id := .Received command.id, reason := command.reason }
  let s1 := { s with tlc_state := s.tlc_state.add_local_tlc (.RemoveTlc rinfo) }
  let sent1 := [OutMsg.removeTlc command.id command.reason]
  match s1.maybe_transition_to_shutdown sdBody with
  | (s2, sent2, some e) => (s2, sent1 ++ sent2, some e)
  | (s2, sent2, none) =>
  match s2.handle_commitment_signed_command csBody with
  | (s3, sent3, some e) => (s3, sent1 ++ sent2 ++ sent3, some e)
  | (s3, sent3, none) =>
      ({ s3 with tlc_state := s3.tlc_state.set_waiting_ack true },
        sent1 ++ sent2 ++ sent3, none)

/-- `handle_add_tlc_command` (the clock reading is an explicit argument):
pure checks first — `check_for_tlc_update`, `check_tlc_expiry`,
`check_insert_tlc` — then append the new offered TLC, bump the id counter,
send the wire `AddTlc`, run the embedded `CommitmentSigned` step and set
`waiting_ack`. -/
def handle_add_tlc_command (csBody : CsBody) (now : Nat)
    (s : ChannelActorState) (command : AddTlcCommand) : HandlerResult :=
  match s.check_for_tlc_update (some command.amount) true true with
  | .error e => (s, [], some e)
  | .ok _ =>
  match check_tlc_expiry now command.expiry with
  | .error e => (s, [], some e)
  | .ok _ =>
  let tlc := s.create_outbounding_tlc command
  match s.check_insert_tlc tlc with
  | .error e => (s, [], some e)
  | .ok _ =>
  let s1 := { s with tlc_state :=
      ((s.tlc_state.add_local_tlc (.AddTlc tlc))).increment_offering }
  let sent1 := [OutMsg.addTlc tlc.tlc_id.toU64]
  match s1.handle_commitment_signed_command csBody with
  | (s2, sent2, some e) => (s2, sent1 ++ sent2, some e)
  | (s2, sent2, none) =>
      ({ s2 with tlc_state := s2.tlc_state.set_waiting_ack true },
        sent1 ++ sent2, none)

/-- `send_revoke_and_ack_message`, with the success of the fallible musig2
signing (`sign_ctx.sign(..)?`) as a boolean parameter: on success the remote
commitment counter is incremented and the `RevokeAndAck` frame is sent; on
failure the error returns before the increment.  The last component records
the values assigned to `commitment_numbers.remote`, in order. -/
def send_revoke_and_ack_message (raaSignOk : Bool) (s : ChannelActorState) :
    ChannelActorState × List OutMsg × Option ProcessingChannelError × List Nat :=
  if raaSignOk then
    let s' := s.increment_remote_commitment_number
    (s', [.revokeAndAck], none, [s'.commitment_numbers.remote])
  else
    (s, [], some .Musig2SigningError, [])

/-- `ReestablishChannel` message payload. -/
structure ReestablishChannel where
  local_commitment_number : Nat
  remote_commitment_number : Nat
  deriving DecidableEq, Repr

/-- `handle_reestablish_channel_message`.  In `ChannelReady` the local pair is
compared first: equal numbers resend the qualifying `AddTlc`/`RemoveTlc`
frames and (if any) a self-addressed `CommitmentSigned` command; the
one-ahead case and the logged invalid case take no action.  The remote pair
then resends `RevokeAndAck` when we are one ahead, by first assigning the
peer's number to `commitment_numbers.remote` and re-incrementing it inside
`send_revoke_and_ack_message`.  Other channel states only clear
`reestablishing`.  The last component records the values assigned to
`commitment_numbers.remote`, in order. -/
def handle_reestablish_channel_message (raaSignOk : Bool) (s : ChannelActorState)
    (msg : ReestablishChannel) :
    ChannelActorState × List OutMsg × Option ProcessingChannelError × List Nat :=
  let s := { s with reestablishing := false }
  match s.state with
  | .ChannelReady =>
      let expected_local := s.get_local_commitment_number
      let actual_local := msg.remote_commitment_number
      let resends :=
        if actual_local = expected_local then
          let per_tlc := s.tlc_state.all_tlcs.foldl
            (fun acc info =>
              if info.is_offered then
                if info.created_at.get_local ≥ actual_local then
                  acc ++ [OutMsg.addTlc info.tlc_id.toU64]
                else acc
              else
                match info.removed_at with
                | some (commitment_number, remove_reason) =>
                    if commitment_number.get_local ≥ actual_local then
                      acc ++ [OutMsg.removeTlc info.tlc_id.toU64 remove_reason]
                    else acc
                | none => acc)
            []
          if per_tlc ≠ [] then per_tlc ++ [OutMsg.commitmentSignedCommand] else []
        else []
      let expected_remote := s.get_remote_commitment_number
      let actual_remote := msg.local_commitment_number
      if expected_remote = actual_remote then
        (s, resends, none, [])
      else if expected_remote = actual_remote + 1 then
        let s1 := s.set_remote_commitment_number actual_remote
        match send_revoke_and_ack_message raaSignOk s1 with
        | (s2, sent2, e, trace) => (s2, resends ++ sent2, e, actual_remote :: trace)
      else
        (s, resends, none, [])
  | _ => (s, [], none, [])

end ChannelActorState

/-- A concrete `ChannelReady` state holding `max_tlc_number_in_flight = 1` and
two recorded remote commitment points (numbers 0 and 1) with no live TLC, at
local commitment number 2: the third `append_remote_commitment_point` call
must prune, but the prune threshold defaults to 0. -/
def overflowingPointsState : ChannelActorState :=
  { state := .ChannelReady
    to_local_amount := 100
    to_remote_amount := 100
    commitment_numbers := { local_ := 2, remote := 2 }
    tlc_state := .new
    remote_commitment_points := [(0, 100), (1, 101)]
    local_constraints := { max_tlc_value_in_flight := 1000, max_tlc_number_in_flight := 1 }
    remote_constraints := { max_tlc_value_in_flight := 1000, max_tlc_number_in_flight := 1 }
    local_funding_pubkey := [1]
    remote_funding_pubkey := [2]
    reestablishing := false }

/-- A concrete `ChannelReady` state with commitment numbers `local = remote
= 5` and no TLCs, used to exercise the reestablish remote-resync branch. -/
def reestablishExampleState : ChannelActorState :=
  { state := .ChannelReady
    to_local_amount := 100
    to_remote_amount := 100
    commitment_numbers := { local_ := 5, remote := 5 }
    tlc_state := .new
    remote_commitment_points := []
    local_constraints := { max_tlc_value_in_flight := 1000, max_tlc_number_in_flight := 30 }
    remote_constraints := { max_tlc_value_in_flight := 1000, max_tlc_number_in_flight := 30 }
    local_funding_pubkey := [1]
    remote_funding_pubkey := [2]
    reestablishing := true }

/-- A `ReestablishChannel` message reporting the peer one commitment behind on
its own (`local_commitment_number = 4`) and in sync on ours
(`remote_commitment_number = 5`), relative to `reestablishExampleState`. -/
def reestablishExampleMsg : ChannelActorState.ReestablishChannel :=
  { local_commitment_number := 4, remote_commitment_number := 5 }

/-- A digest function for concrete examples: the payment hash of a preimage is
the preimage itself (any function works; the model never inspects it). -/
def fulfillHashFn : HashFn := fun _ pre => pre

/-- A trivial instantiation of the abstracted commitment-signing body, for
closed statements whose execution never reaches it. -/
def trivialCsBody : CsBody := fun s _ => (s, [], none)

/-- A trivial instantiation of the abstracted shutdown-signing body, for
closed statements whose execution never reaches it. -/
def trivialSdBody : SdBody := fun s => (s, [], none)

/-- A live received TLC of amount 10 with `payment_hash = 77` (which is the
preimage under `fulfillHashFn`). -/
def exampleReceivedTlc : AddTlcInfo :=
  { tlc_id := .Received 0
    amount := 10
    payment_hash := 77
    expiry := 1000
    hash_algorithm := .CkbHash
    created_at := { local_ := 1, remote := 1 }
    removed_at := none
    payment_preimage := none }

/-- A live offered TLC of amount 10 with `payment_hash = 88`. -/
def exampleOfferedTlc : AddTlcInfo :=
  { tlc_id := .Offered 0
    amount := 10
    payment_hash := 88
    expiry := 1000
    hash_algorithm := .Sha256
    created_at := { local_ := 1, remote := 1 }
    removed_at := none
    payment_preimage := none }

/-- A `ChannelReady` state holding `exampleReceivedTlc` committed on the
remote pending list, with balances 50/40. -/
def exampleChannelState : ChannelActorState :=
  { state := .ChannelReady
    to_local_amount := 50
    to_remote_amount := 40
    commitment_numbers := { local_ := 1, remote := 1 }
    tlc_state :=
      { local_pending_tlcs := .new
        remote_pending_tlcs :=
          { tlcs := [.AddTlc exampleReceivedTlc], committed_index := 1, next_tlc_id := 1 }
        waiting_ack := false }
    remote_commitment_points := []
    local_constraints := { max_tlc_value_in_flight := 1000, max_tlc_number_in_flight := 30 }
    remote_constraints := { max_tlc_value_in_flight := 1000, max_tlc_number_in_flight := 30 }
    local_funding_pubkey := [1]
    remote_funding_pubkey := [2]
    reestablishing := false }

/-- The state `remove_tlc_with_reason` produces from `exampleChannelState`
when fulfilling `exampleReceivedTlc` with the correct preimage: balances
shifted to 60/30 and the TLC compacted out of the remote pending list. -/
def exampleChannelStateAfterRemove : ChannelActorState :=
  { state := .ChannelReady
    to_local_amount := 60
    to_remote_amount := 30
    commitment_numbers := { local_ := 1, remote := 1 }
    tlc_state :=
      { local_pending_tlcs := { tlcs := [], committed_index := 0, next_tlc_id := 0 }
        remote_pending_tlcs := { tlcs := [], committed_index := 0, next_tlc_id := 1 }
        waiting_ack := false }
    remote_commitment_points := []
    local_constraints := { max_tlc_value_in_flight := 1000, max_tlc_number_in_flight := 30 }
    remote_constraints := { max_tlc_value_in_flight := 1000, max_tlc_number_in_flight := 30 }
    local_funding_pubkey := [1]
    remote_funding_pubkey := [2]
    reestablishing := false }

/-- `exampleReceivedTlc` marked as removed at commitment numbers `(1, 1)` by a
fulfill: the shape in which a removed TLC becomes visible again after a commit
sweep copies it back into the remote pending list. -/
def markedReceivedTlc : AddTlcInfo :=
  { exampleReceivedTlc with
      removed_at := some ({ local_ := 1, remote := 1 }, .RemoveTlcFulfill 77) }

/-- `exampleChannelState` with the removed-marked TLC visible on the remote
pending list (the post-commit-sweep shape). -/
def exampleMarkedState : ChannelActorState :=
  { exampleChannelState with
      tlc_state :=
        { local_pending_tlcs := .new
          remote_pending_tlcs :=
            { tlcs := [.AddTlc markedReceivedTlc], committed_index := 1, next_tlc_id := 1 }
          waiting_ack := false } }

/-- `exampleChannelState` with the offered TLC committed on the local pending
list instead. -/
def exampleOfferedState : ChannelActorState :=
  { exampleChannelState with
      tlc_state :=
        { local_pending_tlcs :=
            { tlcs := [.AddTlc exampleOfferedTlc], committed_index := 1, next_tlc_id := 1 }
          remote_pending_tlcs := .new
          waiting_ack := false } }

/-- `exampleChannelState` moved to `ShuttingDown(OUR_SHUTDOWN_SENT)`: the
`AWAITING_PENDING_TLCS` combination is not set, so the embedded
`CommitmentSigned` step of a remove command must reject the state. -/
def shuttingDownState : ChannelActorState :=
  { exampleChannelState with state := .ShuttingDown OUR_SHUTDOWN_SENT }

/-- The state `handle_remove_tlc_command` reaches right after enqueueing the
remove on the local pending list. -/
def ChannelActorState.enqueueRemove (s : ChannelActorState)
    (cmd : RemoveTlcCommand) : ChannelActorState :=
  let rinfo : RemoveTlcInfo := { tlc_id := .Received cmd.id, reason := cmd.reason }
  { s with tlc_state := s.tlc_state.add_local_tlc (.RemoveTlc rinfo) }

/-! ## Helper lemmas -/

theorem commitmentNumbers_eq_of_fields (a b : CommitmentNumbers)
    (h1 : a.local_ = b.local_) (h2 : a.remote = b.remote) : a = b := by
  cases a; cases b; cases h1; cases h2; rfl

theorem lexLe_total (a b : List Nat) : lexLe a b = true ∨ lexLe b a = true := by
  induction a generalizing b with
  | nil => left; cases b <;> rfl
  | cons x xs ih =>
      cases b with
      | nil => right; rfl
      | cons y ys =>
          rcases Nat.lt_trichotomy x y with h | h | h
          · left; simp [lexLe, h]
          · subst h
            rcases ih ys with h' | h'
            · left; simp [lexLe, h']
            · right; simp [lexLe, h']
          · right; simp [lexLe, h]

theorem lexLe_antisymm (a b : List Nat) (hab : lexLe a b = true)
    (hba : lexLe b a = true) : a = b := by
  induction a generalizing b with
  | nil => cases b with
      | nil => rfl
      | cons y ys => simp [lexLe] at hba
  | cons x xs ih =>
      cases b with
      | nil => simp [lexLe] at hab
      | cons y ys =>
          rcases Nat.lt_trichotomy x y with h | h | h
          · simp [lexLe, h, Nat.not_lt.mpr (Nat.le_of_lt h), Nat.lt_irrefl] at hba
          · subst h
            simp [lexLe] at hab hba
            exact congrArg (x :: ·) (ih ys hab hba)
          · simp [lexLe, h, Nat.not_lt.mpr (Nat.le_of_lt h)] at hab

theorem wadd128_eq (a b : Nat) (h : a + b < U128) : wadd128 a b = a + b :=
  Nat.mod_eq_of_lt h

theorem wsub128_eq (a b : Nat) (h1 : b ≤ a) (h2 : a < U128) : wsub128 a b = a - b := by
  unfold wsub128
  rw [Nat.mod_eq_of_lt (Nat.lt_of_le_of_lt h1 h2)]
  have h3 : a + U128 - b = U128 + (a - b) := by omega
  rw [h3, Nat.add_mod_left, Nat.mod_eq_of_lt (by omega)]

/-! ## Claim theorems -/

/-- C10: the direction-flip helpers are involutions: `TLCId.flip` is an
involution exchanging `Offered` and `Received` while preserving the numeric
id (so the `u64` projection is unchanged), and `CommitmentNumbers.flip` is an
involution swapping the `local` and `remote` fields. -/
theorem tlcid_and_commitment_numbers_flip_involutions :
    (∀ t : TLCId, t.flip.flip = t) ∧
    (∀ id : Nat, (TLCId.Offered id).flip = TLCId.Received id ∧
      (TLCId.Received id).flip = TLCId.Offered id) ∧
    (∀ t : TLCId, t.flip.toU64 = t.toU64) ∧
    (∀ c : CommitmentNumbers, c.flip.flip = c) ∧
    (∀ c : CommitmentNumbers, c.flip.local_ = c.remote ∧ c.flip.remote = c.local_) := by
  refine ⟨?_, ?_, ?_, ?_, ?_⟩
  · intro t; cases t <;> rfl
  · intro id; exact ⟨rfl, rfl⟩
  · intro t; cases t <;> rfl
  · intro c; rfl
  · intro c; exact ⟨rfl, rfl⟩

/-- C9: for a 32-byte x-only key and a 64-byte compact signature, the
funding-cell witness is the fixed 16-byte `10 00 00 00`-repeated prefix
followed by the key and the signature (112 bytes total), and the
commitment-cell witness is the same prefix followed by the unlock-type byte
`0xFE`, the key and the signature (113 bytes total). -/
theorem create_witness_formats (key sig : List Nat)
    (hk : key.length = 32) (hs : sig.length = 64) :
    create_witness_for_funding_cell key sig =
      [16, 0, 0, 0, 16, 0, 0, 0, 16, 0, 0, 0, 16, 0, 0, 0] ++ key ++ sig ∧
    (create_witness_for_funding_cell key sig).length = 112 ∧
    create_witness_for_commitment_cell key sig =
      [16, 0, 0, 0, 16, 0, 0, 0, 16, 0, 0, 0, 16, 0, 0, 0] ++ 0xFE :: (key ++ sig) ∧
    (create_witness_for_commitment_cell key sig).length = 113 := by
  refine ⟨rfl, ?_, by simp [create_witness_for_commitment_cell, empty_witness_args], ?_⟩
  · simp [create_witness_for_funding_cell, empty_witness_args, hk, hs]
  · simp [create_witness_for_commitment_cell, empty_witness_args, hk, hs]

/-- Witness for `create_witness_formats` at a concrete key and signature. -/
theorem create_witness_formats_witness :
    (List.replicate 32 7).length = 32 ∧ (List.replicate 64 9).length = 64 ∧
    (create_witness_for_funding_cell (List.replicate 32 7) (List.replicate 64 9)).length
      = 112 := by
  refine ⟨by simp, by simp, ?_⟩
  exact (create_witness_formats (List.replicate 32 7) (List.replicate 64 9)
    (by simp) (by simp)).2.1

/-- C7: the party that sends `TxSignatures` first is exactly the one with the
lower `to_local_amount`, ties broken in favour of the lexicographically
smaller funding pubkey; for two mirror-image peer states with distinct
funding pubkeys, exactly one peer's `should_local_send_tx_signatures_first`
is true. -/
theorem should_local_send_tx_signatures_first_exactly_one
    (s t : ChannelActorState)
    (h1 : t.to_local_amount = s.to_remote_amount)
    (h2 : t.to_remote_amount = s.to_local_amount)
    (h3 : t.local_funding_pubkey = s.remote_funding_pubkey)
    (h4 : t.remote_funding_pubkey = s.local_funding_pubkey)
    (hne : s.local_funding_pubkey ≠ s.remote_funding_pubkey) :
    (s.should_local_send_tx_signatures_first = true ↔
      (s.to_local_amount < s.to_remote_amount ∨
        (s.to_local_amount = s.to_remote_amount ∧
          lexLe s.local_funding_pubkey s.remote_funding_pubkey = true))) ∧
    (s.should_local_send_tx_signatures_first = true ↔
      ¬ t.should_local_send_tx_signatures_first = true) := by
  constructor
  · simp [ChannelActorState.should_local_send_tx_signatures_first,
      ChannelActorState.should_local_go_first_in_musig2]
  · simp only [ChannelActorState.should_local_send_tx_signatures_first,
      ChannelActorState.should_local_go_first_in_musig2, h1, h2, h3, h4,
      Bool.or_eq_true, Bool.and_eq_true, decide_eq_true_eq]
    rcases Nat.lt_trichotomy s.to_local_amount s.to_remote_amount with h | h | h
    · constructor
      · intro _ hc
        rcases hc with hc | ⟨hc, _⟩
        · exact absurd hc (Nat.not_lt.mpr (Nat.le_of_lt h))
        · exact absurd hc (Nat.ne_of_gt h)
      · intro _; left; exact h
    · have hnl : ¬ s.to_local_amount < s.to_remote_amount := by omega
      have hnl' : ¬ s.to_remote_amount < s.to_local_amount := by omega
      constructor
      · rintro (hc | ⟨_, hc⟩) hd
        · exact hnl hc
        · rcases hd with hd | ⟨_, hd⟩
          · exact hnl' hd
          · exact hne (lexLe_antisymm _ _ hc hd)
      · intro hd
        right; refine ⟨h, ?_⟩
        rcases lexLe_total s.local_funding_pubkey s.remote_funding_pubkey with hl | hl
        · exact hl
        · exact absurd (Or.inr ⟨h.symm, hl⟩) hd
    · have hnl : ¬ s.to_local_amount < s.to_remote_amount := by omega
      constructor
      · rintro (hc | ⟨hc, _⟩)
        · exact absurd hc hnl
        · exact absurd hc (Nat.ne_of_gt h)
      · intro hd
        exact absurd (Or.inl h) hd

/-- C8 (failing input): on a state with `max_tlc_number_in_flight = 1`, two
recorded remote commitment points and no live TLC, the third
`append_remote_commitment_point` overflows the `max_tlc_number_in_flight + 1`
bound, the prune threshold `min(created_at.remote)` defaults to 0 so `retain`
keeps all three points, and the trailing `assert!` condition is false (the
Rust code panics), contradicting the spec's bound. -/
theorem append_remote_commitment_point_assert_can_fail :
    (overflowingPointsState.append_remote_commitment_point 102).2 = false ∧
    (overflowingPointsState.append_remote_commitment_point 102).1.remote_commitment_points
      = [(0, 100), (1, 101), (2, 102)] ∧
    overflowingPointsState.local_constraints.max_tlc_number_in_flight + 1 = 2 :=
  ⟨rfl, rfl, rfl⟩

/-- C6: handling `ReestablishChannel` in `ChannelReady` with the remote pair
in sync takes no action when the peer's view of our local commitment number
differs from ours by one in either direction — in particular when
`actual_local + 1 = expected_local` (the claim's condition) and when
`actual_local = expected_local + 1` (the spec's S5 scenario): no `AddTlc`,
`RemoveTlc`, `CommitmentSigned` or `RevokeAndAck` is sent and the commitment
counters are unchanged (only the `reestablishing` flag is cleared). -/
theorem reestablish_local_one_ahead_takes_no_action
    (raaSignOk : Bool) (s : ChannelActorState)
    (msg : ChannelActorState.ReestablishChannel)
    (hstate : s.state = .ChannelReady)
    (hremote : msg.local_commitment_number = s.commitment_numbers.remote) :
    (msg.remote_commitment_number + 1 = s.commitment_numbers.local_ →
      ChannelActorState.handle_reestablish_channel_message raaSignOk s msg =
        ({ s with reestablishing := false }, [], none, [])) ∧
    (msg.remote_commitment_number = s.commitment_numbers.local_ + 1 →
      ChannelActorState.handle_reestablish_channel_message raaSignOk s msg =
        ({ s with reestablishing := false }, [], none, [])) := by
  constructor <;> intro hl <;>
  · have hne : ¬ msg.remote_commitment_number = s.commitment_numbers.local_ := by omega
    simp [ChannelActorState.handle_reestablish_channel_message, hstate,
      ChannelActorState.get_local_commitment_number,
      ChannelActorState.get_remote_commitment_number,
      CommitmentNumbers.get_local, CommitmentNumbers.get_remote, hne, hremote]

/-- Witness for `reestablish_local_one_ahead_takes_no_action` at a concrete
state and message. -/
theorem reestablish_local_one_ahead_takes_no_action_witness :
    ChannelActorState.handle_reestablish_channel_message true reestablishExampleState
      ⟨5, 4⟩ = ({ reestablishExampleState with reestablishing := false }, [], none, []) :=
  (reestablish_local_one_ahead_takes_no_action true reestablishExampleState
    ⟨5, 4⟩ rfl rfl).1 (by decide)

/-- C1 (amended): `commitment_numbers.local` and `.remote` never decrease
across any completed operation — the increment operations strictly increase
one counter and keep the other, and a successful `ReestablishChannel`
handling leaves both counters exactly as they were (the remote-resync branch
first assigns `actual_remote = expected_remote - 1` and the `RevokeAndAck`
resend restores it). -/
theorem commitment_numbers_never_decrease_amended :
    (∀ s : ChannelActorState,
      s.increment_local_commitment_number.commitment_numbers.local_ =
          s.commitment_numbers.local_ + 1 ∧
        s.increment_local_commitment_number.commitment_numbers.remote =
          s.commitment_numbers.remote) ∧
    (∀ s : ChannelActorState,
      s.increment_remote_commitment_number.commitment_numbers.remote =
          s.commitment_numbers.remote + 1 ∧
        s.increment_remote_commitment_number.commitment_numbers.local_ =
          s.commitment_numbers.local_) ∧
    (∀ (s : ChannelActorState) (msg : ChannelActorState.ReestablishChannel),
      (ChannelActorState.handle_reestablish_channel_message true s msg).1.commitment_numbers
        = s.commitment_numbers) := by
  refine ⟨fun s => ⟨rfl, rfl⟩, fun s => ⟨rfl, rfl⟩, fun s msg => ?_⟩
  unfold ChannelActorState.handle_reestablish_channel_message
  cases hs : s.state with
  | ChannelReady =>
      simp only [hs]
      by_cases h2 : s.commitment_numbers.remote = msg.local_commitment_number
      · simp [ChannelActorState.get_remote_commitment_number,
          CommitmentNumbers.get_remote, h2]
      · by_cases h3 : s.commitment_numbers.remote = msg.local_commitment_number + 1
        · simp [ChannelActorState.get_remote_commitment_number,
            CommitmentNumbers.get_remote, h2, h3,
            ChannelActorState.send_revoke_and_ack_message,
            ChannelActorState.set_remote_commitment_number,
            ChannelActorState.increment_remote_commitment_number,
            CommitmentNumbers.increment_remote]
          exact commitmentNumbers_eq_of_fields _ _ rfl h3.symm
        · simp [ChannelActorState.get_remote_commitment_number,
            CommitmentNumbers.get_remote, h2, h3]
  | NegotiatingFunding flags => simp [hs]
  | CollaboratingFundingTx flags => simp [hs]
  | SigningCommitment flags => simp [hs]
  | AwaitingTxSignatures flags => simp [hs]
  | AwaitingChannelReady flags => simp [hs]
  | ShuttingDown flags => simp [hs]
  | Closed flags => simp [hs]

/-- C1 (counterexample): handling a `ReestablishChannel` whose
`local_commitment_number` is one behind ours assigns
`commitment_numbers.remote := 4` although it was 5 before the operation — the
assignment trace starts at 4 even on success, and when the musig2 signing of
the resent `RevokeAndAck` fails the operation completes with the counter
still at 4. -/
theorem reestablish_assigns_smaller_remote_counter :
    reestablishExampleState.commitment_numbers.remote = 5 ∧
    (ChannelActorState.handle_reestablish_channel_message false reestablishExampleState
        reestablishExampleMsg).1.commitment_numbers.remote = 4 ∧
    (ChannelActorState.handle_reestablish_channel_message true reestablishExampleState
        reestablishExampleMsg).2.2.2 = [4, 5] :=
  ⟨rfl, rfl, rfl⟩

/-- C2: `remove_tlc_with_reason` on an existing, not-yet-removed TLC: a
`RemoveTlcFulfill` with the correct preimage moves the TLC amount from
`to_local_amount` to `to_remote_amount` when the TLC is offered, the
mirror-image shift when it is received, preserving the sum; a `RemoveTlcFail`
leaves both balances unchanged. -/
theorem remove_tlc_with_reason_balance_shift (hashFn : HashFn)
    (s : ChannelActorState) (id : TLCId) (info : AddTlcInfo)
    (hget : s.tlc_state.get id = some info)
    (hnone : info.removed_at = none) :
    (∀ pre, hashFn info.hash_algorithm pre = info.payment_hash →
      info.is_offered = true →
      info.amount ≤ s.to_local_amount → s.to_local_amount < U128 →
      s.to_remote_amount + info.amount < U128 →
      ∃ s', ChannelActorState.remove_tlc_with_reason hashFn s id (.RemoveTlcFulfill pre)
          = some (.ok (info, s')) ∧
        s'.to_local_amount = s.to_local_amount - info.amount ∧
        s'.to_remote_amount = s.to_remote_amount + info.amount ∧
        s'.to_local_amount + s'.to_remote_amount
          = s.to_local_amount + s.to_remote_amount) ∧
    (∀ pre, hashFn info.hash_algorithm pre = info.payment_hash →
      info.is_offered = false →
      info.amount ≤ s.to_remote_amount → s.to_remote_amount < U128 →
      s.to_local_amount + info.amount < U128 →
      ∃ s', ChannelActorState.remove_tlc_with_reason hashFn s id (.RemoveTlcFulfill pre)
          = some (.ok (info, s')) ∧
        s'.to_local_amount = s.to_local_amount + info.amount ∧
        s'.to_remote_amount = s.to_remote_amount - info.amount ∧
        s'.to_local_amount + s'.to_remote_amount
          = s.to_local_amount + s.to_remote_amount) ∧
    (∀ packet,
      ∃ s', ChannelActorState.remove_tlc_with_reason hashFn s id (.RemoveTlcFail packet)
          = some (.ok (info, s')) ∧
        s'.to_local_amount = s.to_local_amount ∧
        s'.to_remote_amount = s.to_remote_amount) := by
  refine ⟨?_, ?_, ?_⟩
  · intro pre hpre hoff hle hlt1 hlt2
    simp only [ChannelActorState.remove_tlc_with_reason, hget, hnone, hpre, hoff,
      ne_eq, not_true_eq_false, if_false, if_true, ite_false, ite_true]
    refine ⟨_, rfl, ?_, ?_, ?_⟩ <;>
      (simp [wsub128_eq _ _ hle hlt1, wadd128_eq _ _ hlt2]; try omega)
  · intro pre hpre hoff hle hlt1 hlt2
    simp only [ChannelActorState.remove_tlc_with_reason, hget, hnone, hpre, hoff,
      ne_eq, not_true_eq_false, if_false, if_true, ite_false, ite_true,
      Bool.false_eq_true]
    refine ⟨_, rfl, ?_, ?_, ?_⟩ <;>
      (simp [wsub128_eq _ _ hle hlt1, wadd128_eq _ _ hlt2]; try omega)
  · intro packet
    simp only [ChannelActorState.remove_tlc_with_reason, hget, hnone]
    exact ⟨_, rfl, rfl, rfl⟩

/-- Witness for `remove_tlc_with_reason_balance_shift`, fulfilling the
received TLC of `exampleChannelState`, the offered TLC of
`exampleOfferedState`, and failing the received TLC. -/
theorem remove_tlc_with_reason_balance_shift_witness :
    (∃ s', ChannelActorState.remove_tlc_with_reason fulfillHashFn exampleChannelState
        (.Received 0) (.RemoveTlcFulfill 77) = some (.ok (exampleReceivedTlc, s')) ∧
      s'.to_local_amount = 50 + 10 ∧ s'.to_remote_amount = 40 - 10 ∧
      s'.to_local_amount + s'.to_remote_amount = 50 + 40) ∧
    (∃ s', ChannelActorState.remove_tlc_with_reason fulfillHashFn exampleOfferedState
        (.Offered 0) (.RemoveTlcFulfill 88) = some (.ok (exampleOfferedTlc, s')) ∧
      s'.to_local_amount = 50 - 10 ∧ s'.to_remote_amount = 40 + 10 ∧
      s'.to_local_amount + s'.to_remote_amount = 50 + 40) ∧
    (∃ s', ChannelActorState.remove_tlc_with_reason fulfillHashFn exampleChannelState
        (.Received 0) (.RemoveTlcFail 5) = some (.ok (exampleReceivedTlc, s')) ∧
      s'.to_local_amount = 50 ∧ s'.to_remote_amount = 40) := by
  refine ⟨?_, ?_, ?_⟩
  · exact (remove_tlc_with_reason_balance_shift fulfillHashFn exampleChannelState
      (.Received 0) exampleReceivedTlc rfl rfl).2.1 77 rfl rfl
      (by decide) (by decide) (by decide)
  · exact (remove_tlc_with_reason_balance_shift fulfillHashFn exampleOfferedState
      (.Offered 0) exampleOfferedTlc rfl rfl).1 88 rfl rfl
      (by decide) (by decide) (by decide)
  · exact (remove_tlc_with_reason_balance_shift fulfillHashFn exampleChannelState
      (.Received 0) exampleReceivedTlc rfl rfl).2.2 5

/-- C3 (counterexample): after `remove_tlc_with_reason` has fulfilled the
received TLC of `exampleChannelState`, the TLC is compacted out of the
visible list, so immediately re-applying the identical remove does not return
`RepeatedProcessing`: the checker returns `InvalidParameter` (non-existing
TLC) and `remove_tlc_with_reason` itself hits the `expect("TLC exists")`
panic (modelled as `none`). -/
theorem remove_tlc_twice_not_repeated_processing :
    ChannelActorState.remove_tlc_with_reason fulfillHashFn exampleChannelState
      (.Received 0) (.RemoveTlcFulfill 77)
      = some (.ok (exampleReceivedTlc, exampleChannelStateAfterRemove)) ∧
    ChannelActorState.check_remove_tlc_with_reason fulfillHashFn
      exampleChannelStateAfterRemove (.Received 0) (.RemoveTlcFulfill 77)
      = .error .InvalidParameter ∧
    ChannelActorState.remove_tlc_with_reason fulfillHashFn
      exampleChannelStateAfterRemove (.Received 0) (.RemoveTlcFulfill 77) = none :=
  ⟨rfl, rfl, rfl⟩

/-- C3 (amended): while the TLC is still visibly recorded as removed (its
`removed_at` marker is set and the entry has not been compacted away, or a
commit sweep has recopied the marked entry), re-applying a remove yields
`RepeatedProcessing` without mutation: `check_remove_tlc_with_reason` (a pure
check) returns it for any reason, and `remove_tlc_with_reason` returns it —
before touching the state — when the recorded reason matches and the
commitment numbers have not advanced since the removal. -/
theorem remove_tlc_repeated_detected (hashFn : HashFn) (s : ChannelActorState)
    (id : TLCId) (info : AddTlcInfo) (cn : CommitmentNumbers) (r : RemoveTlcReason)
    (hget : s.tlc_state.get id = some info)
    (hrem : info.removed_at = some (cn, r)) :
    (∀ r' : RemoveTlcReason,
      ChannelActorState.check_remove_tlc_with_reason hashFn s id r'
        = .error .RepeatedProcessing) ∧
    (cn = s.get_current_commitment_numbers →
      ChannelActorState.remove_tlc_with_reason hashFn s id r
        = some (.error .RepeatedProcessing)) := by
  constructor
  · intro r'
    simp [ChannelActorState.check_remove_tlc_with_reason, hget, hrem]
  · intro hcn
    simp [ChannelActorState.remove_tlc_with_reason, hget, hrem, hcn]

/-- Witness for `remove_tlc_repeated_detected` on the post-commit-sweep state
with the marked TLC visible. -/
theorem remove_tlc_repeated_detected_witness :
    ChannelActorState.check_remove_tlc_with_reason fulfillHashFn exampleMarkedState
      (.Received 0) (.RemoveTlcFulfill 77) = .error .RepeatedProcessing ∧
    ChannelActorState.remove_tlc_with_reason fulfillHashFn exampleMarkedState
      (.Received 0) (.RemoveTlcFulfill 77) = some (.error .RepeatedProcessing) := by
  refine ⟨?_, ?_⟩
  · exact (remove_tlc_repeated_detected fulfillHashFn exampleMarkedState
      (.Received 0) markedReceivedTlc { local_ := 1, remote := 1 }
      (.RemoveTlcFulfill 77) rfl rfl).1 (.RemoveTlcFulfill 77)
  · exact (remove_tlc_repeated_detected fulfillHashFn exampleMarkedState
      (.Received 0) markedReceivedTlc { local_ := 1, remote := 1 }
      (.RemoveTlcFulfill 77) rfl rfl).2 rfl

/-- C4 (counterexample): the command-path expiry check accepts an expiry one
millisecond after `now` (1001 with `now = 1000`), although the claim requires
every expiry below `now + MIN_TLC_EXPIRY_DELTA` to be rejected with
`TlcExpirySoon`. -/
theorem check_tlc_expiry_lower_bound_counterexample :
    ChannelActorState.check_tlc_expiry 1000 1001 = .ok () ∧
    1001 < 1000 + ChannelActorState.MIN_TLC_EXPIRY_DELTA :=
  ⟨rfl, by decide⟩

/-- C4 (amended): for any configured upper limit, the command-path
`check_tlc_expiry` accepts exactly the expiries in the open-below interval
`(now, now + limit)` — `expiry ≤ now` is rejected with `TlcExpirySoon`,
`expiry ≥ now + limit` with `TlcExpiryTooFar` (the `MIN_TLC_EXPIRY_DELTA`
margin is only enforced on the inbound apply/forward path) — and
`handle_add_tlc_command` performs the check before any mutation, so either
expiry error returns with the state unchanged and nothing sent. -/
theorem check_tlc_expiry_amended :
    (∀ max_limit now expiry : Nat,
      (ChannelActorState.check_tlc_expiry_with max_limit now expiry = .ok ()
        ↔ now < expiry ∧ expiry < now + max_limit) ∧
      (ChannelActorState.check_tlc_expiry_with max_limit now expiry
          = .error .TlcExpirySoon ↔ expiry ≤ now) ∧
      (ChannelActorState.check_tlc_expiry_with max_limit now expiry
          = .error .TlcExpiryTooFar ↔ now < expiry ∧ now + max_limit ≤ expiry)) ∧
    (∀ (csBody : CsBody) (now : Nat) (s : ChannelActorState)
        (command : AddTlcCommand) (e : ProcessingChannelError),
      s.check_for_tlc_update (some command.amount) true true = .ok () →
      ChannelActorState.check_tlc_expiry now command.expiry = .error e →
      ChannelActorState.handle_add_tlc_command csBody now s command
        = (s, [], some e)) := by
  constructor
  · intro max_limit now expiry
    unfold ChannelActorState.check_tlc_expiry_with
    by_cases h1 : now ≥ expiry
    · simp only [h1, if_true, if_pos]
      refine ⟨by simp; try omega, by simp; try omega, by simp; try omega⟩
    · by_cases h2 : expiry ≥ now + max_limit
      · simp only [if_neg h1, if_pos h2]
        refine ⟨by simp; try omega, by simp; try omega, by simp; try omega⟩
      · simp only [if_neg h1, if_neg h2]
        refine ⟨by simp; try omega, by simp; try omega, by simp; try omega⟩
  · intro csBody now s command e hok herr
    unfold ChannelActorState.handle_add_tlc_command
    simp [hok, herr]

/-- Witness for `check_tlc_expiry_amended`: an `AddTlcCommand` whose expiry is
already past returns `TlcExpirySoon` and leaves `exampleChannelState`
untouched. -/
theorem check_tlc_expiry_amended_witness :
    ChannelActorState.handle_add_tlc_command trivialCsBody 1000 exampleChannelState
      { amount := 5, payment_hash := 99, expiry := 500, hash_algorithm := .CkbHash }
      = (exampleChannelState, [], some .TlcExpirySoon) :=
  check_tlc_expiry_amended.2 trivialCsBody 1000 exampleChannelState
    { amount := 5, payment_hash := 99, expiry := 500, hash_algorithm := .CkbHash }
    .TlcExpirySoon rfl rfl

/-- C5 (counterexample): handling a `RemoveTlcCommand` in
`ShuttingDown(OUR_SHUTDOWN_SENT)` (without `AWAITING_PENDING_TLCS`) returns
`InvalidState` from the embedded `CommitmentSigned` step, yet the state has
been mutated (the remove was enqueued on the local pending list) and the
`RemoveTlc` wire message was already sent. -/
theorem remove_command_invalid_state_still_mutates :
    (ChannelActorState.handle_remove_tlc_command fulfillHashFn trivialCsBody
        trivialSdBody shuttingDownState
        { id := 0, reason := .RemoveTlcFulfill 77 }).2.2 = some .InvalidState ∧
    (ChannelActorState.handle_remove_tlc_command fulfillHashFn trivialCsBody
        trivialSdBody shuttingDownState
        { id := 0, reason := .RemoveTlcFulfill 77 }).1 ≠ shuttingDownState ∧
    (ChannelActorState.handle_remove_tlc_command fulfillHashFn trivialCsBody
        trivialSdBody shuttingDownState
        { id := 0, reason := .RemoveTlcFulfill 77 }).2.1
      = [OutMsg.removeTlc 0 (.RemoveTlcFulfill 77)] :=
  ⟨rfl, by decide, rfl⟩

/-- C5 (amended): a handler whose state precondition is checked before any
mutation returns `InvalidState` (or the checker's error) with the state
unchanged and nothing sent — so for `handle_remove_tlc_command` failing at
`check_for_tlc_update`, and for `handle_commitment_signed_command` in any
rejected state, in particular `ShuttingDown` without `AWAITING_PENDING_TLCS`;
but a `RemoveTlcCommand` handled in that shutdown state passes the early
checks, enqueues the remove and sends the wire message before the embedded
`CommitmentSigned` step returns `InvalidState`, so the state is mutated. -/
theorem invalid_state_rejection_behaviour :
    (∀ (hashFn : HashFn) (csBody : CsBody) (sdBody : SdBody)
        (s : ChannelActorState) (cmd : RemoveTlcCommand) (e : ProcessingChannelError),
      s.check_for_tlc_update none true false = .error e →
      ChannelActorState.handle_remove_tlc_command hashFn csBody sdBody s cmd
        = (s, [], some e)) ∧
    (∀ (csBody : CsBody) (s : ChannelActorState) (e : ProcessingChannelError),
      s.commitment_signed_flags_check = .error e →
      ChannelActorState.handle_commitment_signed_command csBody s = (s, [], some e)) ∧
    (∀ (s : ChannelActorState) (flags : Nat),
      s.state = .ShuttingDown flags →
      containsFlags flags AWAITING_PENDING_TLCS = false →
      s.commitment_signed_flags_check = .error .InvalidState) ∧
    (∀ (hashFn : HashFn) (csBody : CsBody) (sdBody : SdBody)
        (s : ChannelActorState) (cmd : RemoveTlcCommand) (flags : Nat),
      s.state = .ShuttingDown flags →
      containsFlags flags AWAITING_PENDING_TLCS = false →
      s.tlc_state.waiting_ack = false →
      ChannelActorState.check_remove_tlc_with_reason hashFn s
        (.Received cmd.id) cmd.reason = .ok () →
      ChannelActorState.handle_remove_tlc_command hashFn csBody sdBody s cmd =
        (s.enqueueRemove cmd,
          [OutMsg.removeTlc cmd.id cmd.reason], some .InvalidState)) := by
  refine ⟨?_, ?_, ?_, ?_⟩
  · intro hashFn csBody sdBody s cmd e h
    unfold ChannelActorState.handle_remove_tlc_command
    simp [h]
  · intro csBody s e h
    unfold ChannelActorState.handle_commitment_signed_command
    simp [h]
  · intro s flags hs hflags
    unfold ChannelActorState.commitment_signed_flags_check
    simp [hs, hflags]
  · intro hashFn csBody sdBody s cmd flags hs hflags hwait hchk
    have h1 : s.check_for_tlc_update none true false = .ok () := by
      unfold ChannelActorState.check_for_tlc_update
      simp [hwait, hs]
    unfold ChannelActorState.handle_remove_tlc_command
    simp only [h1, hchk]
    unfold ChannelActorState.maybe_transition_to_shutdown
    unfold ChannelActorState.handle_commitment_signed_command
    unfold ChannelActorState.commitment_signed_flags_check
    simp [hs, hflags, ChannelActorState.enqueueRemove]

/-- Witness for `invalid_state_rejection_behaviour` on the concrete
shutting-down state. -/
theorem invalid_state_rejection_behaviour_witness :
    ChannelActorState.handle_remove_tlc_command fulfillHashFn trivialCsBody
        trivialSdBody shuttingDownState { id := 0, reason := .RemoveTlcFulfill 77 } =
      (shuttingDownState.enqueueRemove { id := 0, reason := .RemoveTlcFulfill 77 },
        [OutMsg.removeTlc 0 (.RemoveTlcFulfill 77)], some .InvalidState) :=
  invalid_state_rejection_behaviour.2.2.2 fulfillHashFn trivialCsBody trivialSdBody
    shuttingDownState { id := 0, reason := .RemoveTlcFulfill 77 } OUR_SHUTDOWN_SENT
    rfl rfl rfl rfl

/-- Witness for `should_local_send_tx_signatures_first_exactly_one` at a
concrete mirror-image pair of states. -/
theorem should_local_send_tx_signatures_first_exactly_one_witness :
    ((⟨.ChannelReady, 5, 5, .new, .new, [], ⟨10, 3⟩, ⟨10, 3⟩, [1, 2], [1, 3],
        false⟩ : ChannelActorState).should_local_send_tx_signatures_first = true ↔
      ¬ (⟨.ChannelReady, 5, 5, .new, .new, [], ⟨10, 3⟩, ⟨10, 3⟩, [1, 3], [1, 2],
        false⟩ : ChannelActorState).should_local_send_tx_signatures_first = true) := by
  exact (should_local_send_tx_signatures_first_exactly_one
    ⟨.ChannelReady, 5, 5, .new, .new, [], ⟨10, 3⟩, ⟨10, 3⟩, [1, 2], [1, 3], false⟩
    ⟨.ChannelReady, 5, 5, .new, .new, [], ⟨10, 3⟩, ⟨10, 3⟩, [1, 3], [1, 2], false⟩
    rfl rfl rfl rfl (by decide)).2

end Fiber
